import Mathlib

/-!
Shallow embedding of the agent-coordination core of the
`streamlit_bot_ecosystem` repository (files `src/agents/base_agent.py`,
`src/agents/ceo_bot.py`, `src/agents/planner_bot.py`,
`src/agents/execution_bot.py`), together with theorems settling the
spec claims about it.

Modelling conventions:
* Python dictionaries that carry task / outcome data are embedded as Lean
  structures whose fields are `Option`-typed when the corresponding key may
  be absent (`dict.get` with a default becomes `Option.getD`).
* Python numbers are embedded as `ℤ` (ints) and `ℚ` (true division results);
  all arithmetic is exact.
* Wall-clock reads (`datetime.now()`) are embedded as explicit time
  parameters of type `ℚ`; string formatting of timestamps is irrelevant to
  every claim and is not modelled.
* Free-text payload fields (descriptions, result strings, metric constants
  inside sub-worker outcomes) are never read by the functions under
  verification and are omitted from the records.
* `async` functions contain no real concurrency in the source (each `await`
  is a direct sequential call, plus an `asyncio.sleep` delay); they are
  embedded as pure sequential functions.
-/

namespace BotEcosystem

/-- Task record as consumed by the agents: the numeric attributes read via
`task.get('complexity', 1)` etc. in `ceo_bot.py`, the fan-out allocation read
via `task.get('allocated_sub_agents', 3)` in `base_agent.py`, and the tag
fields. A missing key is `none`. -/
structure Task where
  id : Option String
  kind : Option String
  complexity : Option ℤ
  urgency : Option ℤ
  impact : Option ℤ
  allocated_sub_agents : Option ℤ
  deriving DecidableEq

/-- Outcome record (a Python dict) as inspected by the success predicates:
the three keys `success`, `status`, `success_rate` that
`_calculate_success_rate` (execution_bot.py) and `learn_from_results`
(base_agent.py) read.  Payload keys (`sub_agent`, `task_id`, `result`,
`metrics`, `timestamp`) are never read by any verified function and are
omitted. -/
structure Outcome where
  success : Option Bool
  status : Option String
  success_rate : Option ℚ
  deriving DecidableEq

/-- Raw result record fed to `learn_from_results`: a Python dict (`dict`),
a non-dict object exposing `__dict__` (`obj`, coerced to its structured
representation), or anything else (`other`, dropped by the filter). -/
inductive RawResult where
  | dict (o : Outcome)
  | obj (o : Outcome)
  | other
  deriving DecidableEq

/-- Sub-agent state: `SubAgent.__init__` in base_agent.py (the bounded
`task_history` is never read by any verified function and is omitted). -/
structure SubAgentState where
  name : String
  is_active : Bool
  deriving DecidableEq

/-- Coordinator state shared by all three bots: the fields of
`BaseAgent.__init__` in base_agent.py.  `performance_metrics` is a dict of
which only the key `recent_success_rate` is ever written or read, embedded
as an `Option ℚ` (`none` while the key is absent).  `message_queue` is
embedded as the list of queued records (only its size is read). -/
structure AgentState where
  name : String
  sub_agents : List SubAgentState
  message_queue : List Task
  learning_data : List Outcome
  recent_success_rate : Option ℚ
  is_active : Bool
  deriving DecidableEq

/-- Return value of `SubAgent.perform_task` (base_agent.py lines 102-120),
restricted to the keys the success predicates inspect: the returned dict has
`success = True` and carries no `status` and no `success_rate` key.  The
side effect on the sub-agent's own `task_history` is not read by any
verified function and is not modelled. -/
def sub_agent_perform_task (_task : Task) : Outcome :=
  { success := some true, status := none, success_rate := none }

/-- `BaseAgent._break_down_task` (base_agent.py lines 38-40):
`num_subtasks = min(len(self.sub_agents), task.get('allocated_sub_agents', 3))`
and the Python list `[task] * num_subtasks` (empty when the count is not
positive). -/
def break_down_task (poolSize : ℕ) (task : Task) : List Task :=
  List.replicate (min (poolSize : ℤ) (task.allocated_sub_agents.getD 3)).toNat task

/-- The `for i, subtask in enumerate(subtasks): if i < len(self.sub_agents)`
loop of `BaseAgent.distribute_to_sub_agents` (base_agent.py lines 31-34),
with the running index threaded explicitly. -/
def distribute_loop (poolSize : ℕ) : ℕ → List Task → List Outcome
  | _, [] => []
  | i, st :: rest =>
    if i < poolSize then
      sub_agent_perform_task st :: distribute_loop poolSize (i + 1) rest
    else
      distribute_loop poolSize (i + 1) rest

/-- `BaseAgent.distribute_to_sub_agents` (base_agent.py lines 27-36): break
the task down and run each copy on the sub-agent with the matching index. -/
def distribute_to_sub_agents (poolSize : ℕ) (task : Task) : List Outcome :=
  distribute_loop poolSize 0 (break_down_task poolSize task)

/-- The record filter at the head of `learn_from_results` (base_agent.py
lines 46-51): keep dicts as they are, coerce objects with a `__dict__`,
drop everything else. -/
def valid_results_of (results : List RawResult) : List Outcome :=
  results.filterMap fun r =>
    match r with
    | .dict o => some o
    | .obj o => some o
    | .other => none

/-- The per-record `if/elif` success chain inside `learn_from_results`
(base_agent.py lines 60-65): `result.get('success') is True`, else
`result.get('status') == 'completed'`, else a numeric
`result['success_rate'] > 0.5`. -/
def learnCountsSuccess (o : Outcome) : Bool :=
  if o.success = some true then true
  else if o.status = some "completed" then true
  else
    match o.success_rate with
    | some r => decide ((1 : ℚ) / 2 < r)
    | none => false

/-- `BaseAgent.learn_from_results` (base_agent.py lines 42-71): on an empty
list store rate 0; otherwise filter, extend `learning_data`, and only when
at least one record survived recompute
`recent_success_rate = success_count / len(valid_results)`. -/
def learn_from_results (s : AgentState) (results : List RawResult) : AgentState :=
  if results.isEmpty then
    { s with recent_success_rate := some 0 }
  else
    let valid := valid_results_of results
    let s1 := { s with learning_data := s.learning_data ++ valid }
    if valid.isEmpty then s1
    else
      let rate : ℚ := (valid.countP learnCountsSuccess : ℚ) / valid.length
      { s1 with recent_success_rate := some rate }

/-- Return record of `BaseAgent.get_status` (base_agent.py lines 73-80). -/
structure StatusRecord where
  name : String
  status : String
  sub_agents_active : ℕ
  queue_size : ℕ
  last_activity : ℚ
  deriving DecidableEq

/-- `BaseAgent.get_status` (base_agent.py lines 73-80): a read-only accessor.
The wall-clock read `datetime.now()` becomes the explicit `now` argument;
the method mutates nothing, so the embedding returns the record together
with the (unchanged) coordinator state. -/
def get_status (s : AgentState) (now : ℚ) : StatusRecord × AgentState :=
  ({ name := s.name
     status := if s.is_active then "active" else "inactive"
     sub_agents_active := (s.sub_agents.filter (fun sa => sa.is_active)).length
     queue_size := s.message_queue.length
     last_activity := now }, s)

/-! CEO bot (`src/agents/ceo_bot.py`). -/

/-- Local `score = complexity + urgency + impact` of `CEOBot._assign_priority`
(ceo_bot.py lines 100-104), each attribute defaulting to 1 via `task.get`. -/
def task_score (task : Task) : ℤ :=
  task.complexity.getD 1 + task.urgency.getD 1 + task.impact.getD 1

/-- `CEOBot._assign_priority` (ceo_bot.py lines 99-113): the highest-first
`if/elif` threshold chain on the score. -/
def assign_priority (task : Task) : String :=
  if task_score task ≥ 8 then "critical"
  else if task_score task ≥ 5 then "high"
  else if task_score task ≥ 3 then "medium"
  else "low"

/-- `CEOBot._assess_complexity` (ceo_bot.py lines 115-116). -/
def assess_complexity (task : Task) : ℤ :=
  min 10 (task.complexity.getD 1)

/-- Report record kept in `CEOBot.performance_reports`; only its presence in
the list (the list length) is read by the metrics accessor, so the content
is reduced to the type tag. -/
structure Report where
  report_type : String
  deriving DecidableEq

/-- `CEOBot` state: the base coordinator state plus the CEO-specific lists
of `CEOBot.__init__` (ceo_bot.py lines 7-11); `global_goals` and
`team_evaluations` are never written or read after construction and are
omitted. -/
structure CEOState where
  agent : AgentState
  performance_reports : List Report
  deriving DecidableEq

/-- Return record of `CEOBot.get_performance_metrics` (ceo_bot.py 133-139). -/
structure CEOMetrics where
  tasks_evaluated : ℕ
  reports_generated : ℕ
  efficiency_score : ℚ
  sub_agent_utilization : ℚ
  deriving DecidableEq

/-- `CEOBot.get_performance_metrics` (ceo_bot.py lines 133-139): a read-only
accessor over `learning_data` and `performance_reports`; the embedding
returns the record together with the (unchanged) state. -/
def get_performance_metrics (s : CEOState) : CEOMetrics × CEOState :=
  ({ tasks_evaluated := s.agent.learning_data.length
     reports_generated := s.performance_reports.length
     efficiency_score := 92 / 100
     sub_agent_utilization := 88 / 100 }, s)

/-! Planner bot (`src/agents/planner_bot.py`). -/

/-- Evaluation record as consumed by `PlannerBot` helper methods: the keys
read via `evaluation.get('complexity', 1)` and `evaluation.get('task_id')`.
(The task id only feeds a description string, which is not modelled.) -/
structure Evaluation where
  task_id : Option String
  complexity : Option ℤ
  deriving DecidableEq

/-- Subtask record built by `PlannerBot._breakdown_subtasks` (planner_bot.py
lines 72-79): 1-based `id`, duration `30 * complexity / num_subtasks`
(true division), fixed skill list, and the dependency list
`[j for j in range(1, i)] if i > 0 else []` of the 0-based loop index `i`.
The `description` string is not modelled. -/
structure Subtask where
  id : ℕ
  estimated_duration_minutes : ℚ
  required_skills : List String
  dependencies : List ℕ
  deriving DecidableEq

/-- `PlannerBot._breakdown_subtasks` (planner_bot.py lines 67-81):
`num_subtasks = min(10, max(1, complexity))` with complexity defaulting
to 1, then one subtask per loop index `i in range(num_subtasks)`. -/
def breakdown_subtasks (evaluation : Evaluation) : List Subtask :=
  let complexity : ℤ := evaluation.complexity.getD 1
  let num_subtasks : ℕ := (min 10 (max 1 complexity)).toNat
  (List.range num_subtasks).map fun i =>
    { id := i + 1
      estimated_duration_minutes := (30 * (complexity : ℚ)) / (num_subtasks : ℚ)
      required_skills := ["execution"]
      dependencies := if i > 0 then List.range' 1 (i - 1) else [] }

/-! Execution bot (`src/agents/execution_bot.py`). -/

/-- The per-record `if/elif` success chain inside
`ExecutionBot._calculate_success_rate` (execution_bot.py lines 65-70),
applied only to records that pass the `isinstance(result, dict)` guard:
`result.get('success') is True`, else `result.get('status') == 'completed'`,
else a numeric `result['success_rate'] > 0.5`. -/
def execCountsSuccess (o : Outcome) : Bool :=
  if o.success = some true then true
  else if o.status = some "completed" then true
  else
    match o.success_rate with
    | some r => decide ((1 : ℚ) / 2 < r)
    | none => false

/-- `ExecutionBot._calculate_success_rate` (execution_bot.py lines 57-72):
0.0 on an empty list, otherwise the number of dict records passing the
success chain divided by the total number of records (non-dict records
count in the denominator only). -/
def calculate_success_rate (results : List RawResult) : ℚ :=
  if results.isEmpty then 0
  else
    let successful := results.countP fun r =>
      match r with
      | .dict o => execCountsSuccess o
      | _ => false
    (successful : ℚ) / results.length

/-- Per-subtask result record built by `ExecutionBot._execute_subtask`
(execution_bot.py lines 50-55). -/
structure SubtaskResult where
  subtask_id : Option ℕ
  sub_agent_results : List Outcome
  completion_time : ℚ
  success_rate : ℚ
  deriving DecidableEq

/-- The dispatch payload `{"type": "subtask_execution", ...}` built by
`ExecutionBot._execute_subtask` (execution_bot.py lines 44-48): the dict
carries no `allocated_sub_agents` key, so the fan-out width defaults. -/
def subtask_execution_task (_st : Subtask) : Task :=
  { id := none, kind := some "subtask_execution", complexity := none,
    urgency := none, impact := none, allocated_sub_agents := none }

/-- `ExecutionBot._execute_subtask` (execution_bot.py lines 43-55): dispatch
to the sub-agent pool, record the outcomes, the completion wall-clock read
(`now`) and the success rate over the outcome dicts. -/
def execute_subtask (poolSize : ℕ) (st : Subtask) (now : ℚ) : SubtaskResult :=
  let results := distribute_to_sub_agents poolSize (subtask_execution_task st)
  { subtask_id := some st.id
    sub_agent_results := results
    completion_time := now
    success_rate := calculate_success_rate (results.map RawResult.dict) }

/-- Summary record built by `ExecutionBot._generate_execution_summary`
(execution_bot.py lines 84-91). -/
structure ExecutionSummary where
  total_subtasks : ℕ
  successful_subtasks : ℕ
  success_rate : ℚ
  total_duration_seconds : ℚ
  efficiency_score : ℚ
  resources_utilized : ℕ
  deriving DecidableEq

/-- `ExecutionBot._generate_execution_summary` (execution_bot.py lines
74-91).  The duration computed there from the parsed start/end timestamps
is the explicit `duration` argument here. -/
def generate_execution_summary (subtask_results : List SubtaskResult)
    (duration : ℚ) : ExecutionSummary :=
  let total_subtasks := subtask_results.length
  let successful_subtasks :=
    subtask_results.countP fun r => decide ((8 : ℚ) / 10 < r.success_rate)
  { total_subtasks := total_subtasks
    successful_subtasks := successful_subtasks
    success_rate :=
      if total_subtasks > 0 then (successful_subtasks : ℚ) / total_subtasks else 0
    total_duration_seconds := duration
    efficiency_score :=
      if duration > 0 then (total_subtasks : ℚ) / duration else 0
    resources_utilized :=
      (subtask_results.filter fun r => !r.sub_agent_results.isEmpty).length }

/-- Plan record as consumed by `ExecutionBot.execute_plan`: the keys read
via `plan.get('plan_id')` and `plan.get('subtasks', [])`. -/
structure Plan where
  plan_id : Option String
  subtasks : List Subtask
  deriving DecidableEq

/-- Execution result record built by `ExecutionBot.execute_plan`
(execution_bot.py lines 22-41), after the final status flip and summary
attachment. -/
structure ExecutionResult where
  plan_id : Option String
  start_time : ℚ
  end_time : ℚ
  status : String
  subtask_results : List SubtaskResult
  summary : ExecutionSummary
  deriving DecidableEq

/-- The `for subtask in subtasks` loop of `ExecutionBot.execute_plan`
(execution_bot.py lines 32-34), with the per-iteration wall-clock read
supplied by `clock` at the running index. -/
def execute_subtasks_loop (poolSize : ℕ) (clock : ℕ → ℚ) :
    ℕ → List Subtask → List SubtaskResult
  | _, [] => []
  | i, st :: rest =>
    execute_subtask poolSize st (clock i) :: execute_subtasks_loop poolSize clock (i + 1) rest

/-- `ExecutionBot.execute_plan` (execution_bot.py lines 19-41): run every
subtask of the plan in listed order, then flip the status to `completed`
and attach the derived summary.  The two wall-clock reads for
`start_time`/`end_time` and the per-subtask completion reads are explicit
time arguments. -/
def execute_plan (poolSize : ℕ) (plan : Plan) (start_time end_time : ℚ)
    (clock : ℕ → ℚ) : ExecutionResult :=
  let results := execute_subtasks_loop poolSize clock 0 plan.subtasks
  { plan_id := plan.plan_id
    start_time := start_time
    end_time := end_time
    status := "completed"
    subtask_results := results
    summary := generate_execution_summary results (end_time - start_time) }

/-! Spec-side definitions (written from the spec's words, for comparison). -/

/-- Modelled from the spec: the canonical three-way OR success predicate of
spec §4.2 — an outcome counts as successful if ANY of: explicit success
flag is true; explicit status equals "completed"; a graded success-rate
field is present and exceeds 0.5.  The three checks are independent
disjuncts, written here without the source's `elif` chaining. -/
def threeWaySuccess (o : Outcome) : Bool :=
  (o.success == some true) || (o.status == some "completed") ||
    (match o.success_rate with
     | some r => decide ((1 : ℚ) / 2 < r)
     | none => false)

/-! Helper lemmas. -/

/-- Both per-record `if/elif` success chains compute the spec's three-way
OR predicate. -/
lemma countsSuccess_eq_threeWay (o : Outcome) :
    execCountsSuccess o = threeWaySuccess o ∧
      learnCountsSuccess o = threeWaySuccess o := by
  rcases o with ⟨s, st, r⟩
  unfold execCountsSuccess learnCountsSuccess threeWaySuccess
  constructor <;> split_ifs with h1 h2 <;> simp_all [beq_iff_eq]

/-- A concrete coordinator state used by counterexamples and witnesses. -/
def sampleAgentState : AgentState :=
  { name := "execution_bot"
    sub_agents := [{ name := "execution_bot_sub_0", is_active := true }]
    message_queue := []
    learning_data := []
    recent_success_rate := some (7 / 10)
    is_active := true }

/-- A concrete task with no declared allocation. -/
def sampleTask : Task :=
  { id := some "t1", kind := some "analysis", complexity := some 3,
    urgency := some 2, impact := some 4, allocated_sub_agents := none }

/-! Claim theorems. -/

/-- Claim C5: the Evaluator assigns priority from
`score = complexity + urgency + impact` with inclusive lower-bound
thresholds checked highest-first — score ≥ 8 gives "critical", score ≥ 5
gives "high", score ≥ 3 gives "medium", anything lower gives "low" — and a
task with complexity = urgency = impact = 1 (score 3) gets "medium". -/
theorem C5_priority_bands (t : Task) :
    (assign_priority t = "critical" ↔ 8 ≤ task_score t) ∧
    (assign_priority t = "high" ↔ 5 ≤ task_score t ∧ task_score t < 8) ∧
    (assign_priority t = "medium" ↔ 3 ≤ task_score t ∧ task_score t < 5) ∧
    (assign_priority t = "low" ↔ task_score t < 3) ∧
    assign_priority
      { id := none, kind := none, complexity := some 1, urgency := some 1,
        impact := some 1, allocated_sub_agents := none } = "medium" := by
  refine ⟨?_, ?_, ?_, ?_, by decide⟩ <;>
    unfold assign_priority <;> split_ifs <;> simp_all <;> omega

/-- Claim C8: the learning update on an empty list always stores
`recentSuccessRate = 0`, regardless of prior history or previously stored
rate, and leaves the history unchanged. -/
theorem C8_learn_empty (s : AgentState) :
    (learn_from_results s []).recent_success_rate = some 0 ∧
    (learn_from_results s []).learning_data = s.learning_data := by
  simp [learn_from_results]

/-- Claim C9: the status accessor and the CEO performance-metrics accessor
leave the coordinator state unchanged, and calling either twice with no
intervening mutation returns identical values except for the timestamp
field (`last_activity`). -/
theorem C9_accessors_pure (s : AgentState) (c : CEOState) (t1 t2 : ℚ) :
    (get_status s t1).2 = s ∧
    (get_performance_metrics c).2 = c ∧
    ((get_status s t1).1.name = (get_status (get_status s t1).2 t2).1.name ∧
     (get_status s t1).1.status = (get_status (get_status s t1).2 t2).1.status ∧
     (get_status s t1).1.sub_agents_active
        = (get_status (get_status s t1).2 t2).1.sub_agents_active ∧
     (get_status s t1).1.queue_size
        = (get_status (get_status s t1).2 t2).1.queue_size) ∧
    (get_performance_metrics (get_performance_metrics c).2).1
        = (get_performance_metrics c).1 :=
  ⟨rfl, rfl, ⟨rfl, rfl, rfl, rfl⟩, rfl⟩

/-- Claim C3: both success-rate computations (the Executor's aggregation
step and the shared learning update) count a record as successful exactly
by the three-way OR predicate — success flag true, or status "completed",
or a numeric success_rate above 0.5 — the two call sites implement the same
predicate, and an empty outcome list yields success rate 0.0 rather than an
error at both sites. -/
theorem C3_canonical_success_predicate (o : Outcome) (l : List Outcome)
    (s : AgentState) :
    execCountsSuccess o = threeWaySuccess o ∧
    learnCountsSuccess o = threeWaySuccess o ∧
    calculate_success_rate (l.map RawResult.dict)
        = (l.countP threeWaySuccess : ℚ) / l.length ∧
    calculate_success_rate [] = 0 ∧
    (learn_from_results s []).recent_success_rate = some 0 := by
  refine ⟨(countsSuccess_eq_threeWay o).1, (countsSuccess_eq_threeWay o).2,
    ?_, by simp [calculate_success_rate], by simp [learn_from_results]⟩
  unfold calculate_success_rate
  rcases l with _ | ⟨a, l⟩
  · simp
  · rw [if_neg (by simp : ¬(List.map RawResult.dict (a :: l)).isEmpty = true),
      List.countP_map, List.length_map]
    dsimp only
    congr 2
    refine List.countP_congr fun x _ => ?_
    show execCountsSuccess x = true ↔ threeWaySuccess x = true
    rw [(countsSuccess_eq_threeWay x).1]

/-- A concrete evaluation record with complexity 5. -/
def sampleEval : Evaluation := { task_id := none, complexity := some 5 }

/-- Claim C1 as written fails on the code: with complexity 2 the breakdown
yields two subtasks whose dependency lists are `[]` and `[]`, while the
claimed `{0,…,i-1}` chain would make the second subtask depend on `[0]`
(`List.range 1`). -/
theorem C1_counterexample :
    (breakdown_subtasks { task_id := none, complexity := some 2 }).map
        Subtask.dependencies = [[], []] ∧
    [([] : List ℕ), []] ≠ [List.range 0, List.range 1] := by
  constructor
  · decide
  · decide

/-- Claim C1 (amended): the breakdown produces exactly
`clamp(complexity, 1, 10)` subtasks, and the dependency list of subtask `i`
(0-indexed) is `[1, …, i-1]` — empty for the first two subtasks — rather
than the fully linear `{0, …, i-1}`. -/
theorem C1_breakdown_subtasks (e : Evaluation) (i : ℕ)
    (h : i < (breakdown_subtasks e).length) :
    (breakdown_subtasks e).length
        = (min 10 (max 1 (e.complexity.getD 1))).toNat ∧
    ((breakdown_subtasks e).get ⟨i, h⟩).dependencies
        = (List.range (i - 1)).map (fun j => j + 1) := by
  constructor
  · simp [breakdown_subtasks]
  · have hi : i < (min 10 (max 1 (e.complexity.getD 1))).toNat := by
      simpa [breakdown_subtasks] using h
    simp only [breakdown_subtasks, List.get_eq_getElem, List.getElem_map,
      List.getElem_range]
    by_cases h0 : i > 0
    · rw [if_pos h0, List.range'_eq_map_range]
      exact List.map_congr_left fun j _ => Nat.add_comm 1 j
    · rw [if_neg h0]
      have : i = 0 := by omega
      subst this
      rfl

/-- Claim C1 (amended) at the concrete input `sampleEval` (complexity 5),
subtask index 2. -/
theorem C1_breakdown_subtasks_witness :
    (breakdown_subtasks sampleEval).length
        = (min 10 (max 1 (sampleEval.complexity.getD 1))).toNat ∧
    ((breakdown_subtasks sampleEval).get ⟨2, by decide⟩).dependencies
        = (List.range (2 - 1)).map (fun j => j + 1) :=
  C1_breakdown_subtasks sampleEval 2 (by decide)

/-- Length of the enumerated-and-capped dispatch loop: entries are kept
exactly while the running index is below the pool size. -/
lemma distribute_loop_length (p : ℕ) (l : List Task) (i : ℕ) :
    (distribute_loop p i l).length = min l.length (p - i) := by
  induction l generalizing i with
  | nil => simp [distribute_loop]
  | cons a l ih =>
    simp only [distribute_loop]
    split_ifs with h
    · simp only [List.length_cons, ih]
      omega
    · rw [ih]
      simp only [List.length_cons]
      omega

/-- The fan-out width of a dispatch is the pool size capped by the task's
declared allocation (default 3). -/
lemma distribute_length (p : ℕ) (t : Task) :
    (distribute_to_sub_agents p t).length
        = min p (t.allocated_sub_agents.getD 3).toNat := by
  unfold distribute_to_sub_agents break_down_task
  rw [distribute_loop_length, List.length_replicate]
  omega

/-- Claim C2: the fan-out width of a dispatch equals
`min(pool size, requested/declared allocation)` with the allocation
defaulting to 3 when the task declares none (the requested count and the
task-declared allocation are the same datum, the task's
`allocated_sub_agents` entry); a request of 0 yields an empty outcome
list and success rate 0.0 rather than an error; and a request beyond the
pool size is silently capped at the pool size. -/
theorem C2_dispatch_width (p : ℕ) (t : Task) :
    (distribute_to_sub_agents p t).length
        = min p (t.allocated_sub_agents.getD 3).toNat ∧
    (t.allocated_sub_agents = none →
      (distribute_to_sub_agents p t).length = min p 3) ∧
    (t.allocated_sub_agents = some 0 →
      distribute_to_sub_agents p t = [] ∧
      calculate_success_rate
        ((distribute_to_sub_agents p t).map RawResult.dict) = 0) ∧
    (∀ a : ℤ, t.allocated_sub_agents = some a → (p : ℤ) ≤ a →
      (distribute_to_sub_agents p t).length = p) := by
  refine ⟨distribute_length p t, ?_, ?_, ?_⟩
  · intro h
    rw [distribute_length, h]
    rfl
  · intro h
    have he : distribute_to_sub_agents p t = [] := by
      have hl : (distribute_to_sub_agents p t).length = 0 := by
        rw [distribute_length, h]
        simp
      exact List.length_eq_zero.mp hl
    refine ⟨he, ?_⟩
    rw [he]
    simp [calculate_success_rate]
  · intro a ha hpa
    rw [distribute_length, ha]
    simp only [Option.getD_some]
    omega

/-- A concrete task declaring a zero allocation. -/
def zeroAllocTask : Task :=
  { id := none, kind := none, complexity := none, urgency := none,
    impact := none, allocated_sub_agents := some 0 }

/-- A concrete task declaring an allocation larger than a pool of 2. -/
def bigAllocTask : Task :=
  { id := none, kind := none, complexity := none, urgency := none,
    impact := none, allocated_sub_agents := some 5 }

/-- Claim C2 at concrete inputs: default allocation on a pool of 10, zero
request, and a request of 5 against a pool of 2. -/
theorem C2_dispatch_width_witness :
    (distribute_to_sub_agents 10 sampleTask).length = min 10 3 ∧
    (distribute_to_sub_agents 10 zeroAllocTask = [] ∧
      calculate_success_rate
        ((distribute_to_sub_agents 10 zeroAllocTask).map RawResult.dict) = 0) ∧
    (distribute_to_sub_agents 2 bigAllocTask).length = 2 :=
  ⟨(C2_dispatch_width 10 sampleTask).2.1 rfl,
   (C2_dispatch_width 10 zeroAllocTask).2.2.1 rfl,
   (C2_dispatch_width 2 bigAllocTask).2.2.2 5 rfl (by decide)⟩

/-- An outcome record marked successful by its explicit success flag. -/
def flaggedOutcome : Outcome :=
  { success := some true, status := none, success_rate := none }

/-- Claim C4 as written fails on the code: a non-empty input consisting of
one malformed (non-dict-like) record leaves the previously stored success
rate (7/10) in place instead of recomputing it over the zero accepted
records. -/
theorem C4_counterexample :
    (learn_from_results sampleAgentState [RawResult.other]).recent_success_rate
        = some (7 / 10) ∧
    some ((7 : ℚ) / 10)
        ≠ some (((valid_results_of [RawResult.other]).countP
              learnCountsSuccess : ℚ) / (valid_results_of [RawResult.other]).length) := by
  refine ⟨rfl, ?_⟩
  simp [valid_results_of]

/-- Claim C4 (amended): on a non-empty input the learning update appends
exactly the accepted (dict-like, after coercion) records to history and
never fails; when at least one record is accepted it recomputes
`recentSuccessRate` as (accepted records satisfying the success chain) /
(number of accepted records), and when every record is filtered out it
leaves the stored rate unchanged. -/
theorem C4_learning_update (s : AgentState) (results : List RawResult)
    (h : results ≠ []) :
    (learn_from_results s results).learning_data
        = s.learning_data ++ valid_results_of results ∧
    (valid_results_of results ≠ [] →
      (learn_from_results s results).recent_success_rate
        = some (((valid_results_of results).countP learnCountsSuccess : ℚ)
            / (valid_results_of results).length)) ∧
    (valid_results_of results = [] →
      (learn_from_results s results).recent_success_rate
        = s.recent_success_rate) := by
  unfold learn_from_results
  rw [if_neg (by simpa using h)]
  dsimp only
  split_ifs with hv
  · refine ⟨rfl, ?_, fun _ => rfl⟩
    intro hne
    exact absurd (List.isEmpty_iff.mp hv) hne
  · refine ⟨rfl, fun _ => rfl, ?_⟩
    intro he
    exact absurd (List.isEmpty_iff.mpr he) (by simpa using hv)

/-- Claim C4 (amended) at the concrete input of one accepted dict record. -/
theorem C4_learning_update_witness :
    (learn_from_results sampleAgentState [RawResult.dict flaggedOutcome]).learning_data
        = sampleAgentState.learning_data
            ++ valid_results_of [RawResult.dict flaggedOutcome] ∧
    (learn_from_results sampleAgentState [RawResult.dict flaggedOutcome]).recent_success_rate
        = some (((valid_results_of [RawResult.dict flaggedOutcome]).countP
              learnCountsSuccess : ℚ)
            / (valid_results_of [RawResult.dict flaggedOutcome]).length) :=
  ⟨(C4_learning_update sampleAgentState [RawResult.dict flaggedOutcome]
      (by decide)).1,
   (C4_learning_update sampleAgentState [RawResult.dict flaggedOutcome]
      (by decide)).2.1 (by decide)⟩

/-- Claim C6: the execution summary counts a subtask as successful exactly
when its success rate exceeds 0.8 (a distinct threshold from the 0.5 used
inside the per-outcome success predicate), derives the overall success rate
as successful/total (0 when there are no subtasks), derives throughput as
total/duration (0 when the duration is 0), and counts the utilized
resources as the subtasks with at least one sub-worker outcome. -/
theorem C6_execution_summary (rs : List SubtaskResult) (dur : ℚ) :
    (generate_execution_summary rs dur).total_subtasks = rs.length ∧
    (generate_execution_summary rs dur).successful_subtasks
        = rs.countP (fun r => decide ((8 : ℚ) / 10 < r.success_rate)) ∧
    (rs ≠ [] → (generate_execution_summary rs dur).success_rate
        = ((generate_execution_summary rs dur).successful_subtasks : ℚ)
            / rs.length) ∧
    (rs = [] → (generate_execution_summary rs dur).success_rate = 0) ∧
    (0 < dur → (generate_execution_summary rs dur).efficiency_score
        = (rs.length : ℚ) / dur) ∧
    (dur = 0 → (generate_execution_summary rs dur).efficiency_score = 0) ∧
    (generate_execution_summary rs dur).resources_utilized
        = rs.countP (fun r => decide (0 < r.sub_agent_results.length)) := by
  unfold generate_execution_summary
  dsimp only
  refine ⟨rfl, rfl, ?_, ?_, ?_, ?_, ?_⟩
  · intro h
    rw [if_pos (List.length_pos.mpr h)]
  · intro h
    subst h
    simp
  · intro h
    rw [if_pos h]
  · intro h
    subst h
    simp
  · rw [List.countP_eq_length_filter]
    have hpred : (fun r : SubtaskResult => !r.sub_agent_results.isEmpty)
        = fun r : SubtaskResult => decide (0 < r.sub_agent_results.length) := by
      funext r
      cases hr : r.sub_agent_results <;> simp [hr]
    rw [hpred]

/-- A concrete per-subtask result with one sub-worker outcome. -/
def sampleSubtaskResult : SubtaskResult :=
  { subtask_id := some 1, sub_agent_results := [flaggedOutcome],
    completion_time := 0, success_rate := 1 }

/-- Claim C6 at the concrete input of one subtask result and duration 2. -/
theorem C6_execution_summary_witness :
    (generate_execution_summary [sampleSubtaskResult] 2).success_rate
        = ((generate_execution_summary [sampleSubtaskResult] 2).successful_subtasks : ℚ)
            / ([sampleSubtaskResult] : List SubtaskResult).length ∧
    (generate_execution_summary [sampleSubtaskResult] 2).efficiency_score
        = (([sampleSubtaskResult] : List SubtaskResult).length : ℚ) / 2 :=
  ⟨(C6_execution_summary [sampleSubtaskResult] 2).2.2.1 (by decide),
   (C6_execution_summary [sampleSubtaskResult] 2).2.2.2.2.1 (by norm_num)⟩

/-- The executor's subtask loop keeps the listed order: it emits the
per-subtask results index-aligned with the plan's subtasks. -/
lemma execute_loop_ids (p : ℕ) (clock : ℕ → ℚ) (l : List Subtask) (i : ℕ) :
    (execute_subtasks_loop p clock i l).map SubtaskResult.subtask_id
        = l.map (fun st => some st.id) := by
  induction l generalizing i with
  | nil => rfl
  | cons a l ih => simp [execute_subtasks_loop, execute_subtask, ih]

/-- Every result emitted by the executor's subtask loop carries the success
rate computed by the canonical predicate over its own outcomes. -/
lemma execute_loop_rates (p : ℕ) (clock : ℕ → ℚ) (l : List Subtask) (i : ℕ) :
    ∀ sr ∈ execute_subtasks_loop p clock i l,
      sr.success_rate
        = calculate_success_rate (sr.sub_agent_results.map RawResult.dict) := by
  induction l generalizing i with
  | nil => intro sr h; cases h
  | cons a l ih =>
    intro sr h
    rcases List.mem_cons.mp h with h | h
    · subst h; rfl
    · exact ih (i + 1) sr h

/-- Claim C7: executing a plan with k subtasks returns a result with
terminal status "completed" and exactly k per-subtask results, in the
plan's listed order, each carrying a success rate computed by the canonical
predicate over its own sub-worker outcomes. -/
theorem C7_execute_plan (p : ℕ) (plan : Plan) (ts te : ℚ) (clock : ℕ → ℚ) :
    (execute_plan p plan ts te clock).status = "completed" ∧
    (execute_plan p plan ts te clock).subtask_results.length
        = plan.subtasks.length ∧
    (execute_plan p plan ts te clock).subtask_results.map
        SubtaskResult.subtask_id = plan.subtasks.map (fun st => some st.id) ∧
    ∀ sr ∈ (execute_plan p plan ts te clock).subtask_results,
      sr.success_rate
        = calculate_success_rate (sr.sub_agent_results.map RawResult.dict) := by
  refine ⟨rfl, ?_, execute_loop_ids p clock plan.subtasks 0,
    execute_loop_rates p clock plan.subtasks 0⟩
  have := congrArg List.length (execute_loop_ids p clock plan.subtasks 0)
  simpa using this

/-- A concrete subtask as the planner would emit it. -/
def sampleSubtask : Subtask :=
  { id := 1, estimated_duration_minutes := 30,
    required_skills := ["execution"], dependencies := [] }

/-- A concrete one-subtask plan. -/
def samplePlan : Plan := { plan_id := some "p1", subtasks := [sampleSubtask] }

/-- Claim C7 at the concrete one-subtask plan on a pool of size 1. -/
theorem C7_execute_plan_witness :
    (execute_plan 1 samplePlan 0 1 (fun _ => 0)).status = "completed" ∧
    (execute_subtask 1 sampleSubtask 0).success_rate
        = calculate_success_rate
            ((execute_subtask 1 sampleSubtask 0).sub_agent_results.map
              RawResult.dict) :=
  ⟨(C7_execute_plan 1 samplePlan 0 1 (fun _ => 0)).1,
   (C7_execute_plan 1 samplePlan 0 1 (fun _ => 0)).2.2.2
      (execute_subtask 1 sampleSubtask 0) (List.mem_singleton_self _)⟩

/-- Every outcome produced by the dispatch loop is a sub-agent stub outcome,
whose success flag is True. -/
lemma distribute_loop_success (p : ℕ) (l : List Task) (i : ℕ) :
    ∀ o ∈ distribute_loop p i l, o.success = some true := by
  induction l generalizing i with
  | nil => intro o h; cases h
  | cons a l ih =>
    intro o h
    simp only [distribute_loop] at h
    split_ifs at h with hc
    · rcases List.mem_cons.mp h with h | h
      · subst h; rfl
      · exact ih (i + 1) o h
    · exact ih (i + 1) o h

/-- Claim C10 (implicit): the sub-worker execution stub always returns an
outcome whose success flag is True, so for every dispatch with fan-out
width at least 1 the aggregated success rate over the returned outcomes is
exactly 1.0. -/
theorem C10_stub_success (p : ℕ) (t u : Task)
    (h : distribute_to_sub_agents p t ≠ []) :
    (sub_agent_perform_task u).success = some true ∧
    calculate_success_rate
        ((distribute_to_sub_agents p t).map RawResult.dict) = 1 := by
  refine ⟨rfl, ?_⟩
  unfold calculate_success_rate
  rw [if_neg (by simpa using h)]
  dsimp only
  have hall : ∀ o ∈ distribute_to_sub_agents p t,
      execCountsSuccess o = true := by
    intro o ho
    have hs := distribute_loop_success p _ 0 o ho
    simp [execCountsSuccess, hs]
  have hc : List.countP (fun r =>
      match r with
      | RawResult.dict o => execCountsSuccess o
      | _ => false) ((distribute_to_sub_agents p t).map RawResult.dict)
      = ((distribute_to_sub_agents p t).map RawResult.dict).length :=
    List.countP_eq_length.mpr (by
      intro r hr
      rcases List.mem_map.mp hr with ⟨o, ho, rfl⟩
      show execCountsSuccess o = true
      exact hall o ho)
  rw [hc, List.length_map]
  have hlen : ((distribute_to_sub_agents p t).length : ℚ) ≠ 0 := by
    exact_mod_cast fun hz => h (List.length_eq_zero.mp (by exact_mod_cast hz))
  exact div_self hlen

/-- Claim C10 at the concrete default dispatch (width 3) on a pool of 10. -/
theorem C10_stub_success_witness :
    calculate_success_rate
        ((distribute_to_sub_agents 10 sampleTask).map RawResult.dict) = 1 :=
  (C10_stub_success 10 sampleTask sampleTask (by decide)).2

end BotEcosystem
